import Mathlib

/-!
Verification of the transit-alert subscription and notification service.

The definitions below are a shallow embedding of the Python sources:
  * `src/server/application/transit_alert_service.py`   (class TransitAlertSystem)
  * `src/server/application/lambda_handler.py`          (lambda_handler command routing)
  * `src/server/deployment/lambda_build/transport_data_stream.py` (TransportDataService)
  * `src/server/deployment/transit_alert_service.py`    (deployment variant)
  * `src/server/application/services/transit_alert_service.py` (services variant)

Timestamps are modelled as absolute seconds (`Int`); the DynamoDB table is a
list of records with `put_item` overwriting the item that has the same
(user_id, bus_route) primary key; SNS is modelled as an environment giving
the subscription ARN returned by `subscribe` and the confirmation status
reported by `get_subscription_attributes`, together with an explicit list of
the side effects issued against it.
-/

set_option autoImplicit false

namespace TransitAlert

/-! ## Email validation

Both `TransitAlertSystem.is_valid_email` and `LambdaFunctionService.validate_email`
test `re.match(r"[^@]+@[^@]+\.[^@]+", email)`: the string must have a prefix
consisting of one or more non-`@` characters, an `@`, one or more non-`@`
characters, a literal dot and one further non-`@` character. The matcher
below implements exactly that backtracking search on the character list. -/

/-- After at least one domain character (`[^@]+`) has been consumed: either a
dot followed by a non-`@` character closes the pattern here, or one more
non-`@` domain character is consumed. -/
def dotTail : List Char → Bool
  | c :: d :: rest => (c == '.' && d != '@') || (c != '@' && dotTail (d :: rest))
  | _ => false

/-- The domain part `[^@]+\.[^@]+` matched against a prefix of the list. -/
def domPart : List Char → Bool
  | b :: rest => b != '@' && dotTail rest
  | [] => false

/-- After at least one local character: an `@` hands over to the domain part,
any other character extends `[^@]+`. -/
def localTail : List Char → Bool
  | '@' :: rest => domPart rest
  | _ :: rest => localTail rest
  | [] => false

/-- The whole pattern `[^@]+@[^@]+\.[^@]+` matched against a prefix. -/
def emailMatch : List Char → Bool
  | c :: rest => c != '@' && localTail rest
  | [] => false

/-- `TransitAlertSystem.is_valid_email` (application variant, line 27-28). -/
def is_valid_email (email : String) : Bool :=
  emailMatch email.data

/-- `LambdaFunctionService.validate_user_route` (lambda_handler.py lines 75-83),
returned as "no error": each of user_id, route and stop_id must be a
non-empty string. -/
def validate_user_route (user_id route stop_id : String) : Bool :=
  user_id != "" && route != "" && stop_id != ""

/-! ## Subscription store (transport_data_stream.py, deployment/lambda_build) -/

/-- One DynamoDB item of the subscription table.  The primary key is
(user_id, bus_route); `subscription_arn` is absent when SNS returned no ARN. -/
structure SubRecord where
  user_id : String
  bus_route : String
  stop_id : String
  email : String
  subscription_arn : Option String
  email_status : String
deriving DecidableEq

/-- Whether a record carries the given (user_id, bus_route) primary key. -/
def sameKey (r : SubRecord) (uid route : String) : Bool :=
  r.user_id == uid && r.bus_route == route

/-- `table.put_item` of `save_subscription_record` (lines 196-208): DynamoDB
overwrites the item with the same primary key, so the store keeps every other
record and gains the new one. -/
def putItem (store : List SubRecord) (item : SubRecord) : List SubRecord :=
  store.filter (fun r => !(sameKey r item.user_id item.bus_route)) ++ [item]

/-- `get_user_subscriptions` (lines 55-66): all items of the user whose
`bus_route` attribute is not the literal "email". -/
def get_user_subscriptions (store : List SubRecord) (uid : String) : List SubRecord :=
  store.filter (fun r => r.user_id == uid && r.bus_route != "email")

/-- `get_user_subscription_arn` (lines 69-80): the first item of the user for
the given route that has a `subscription_arn` attribute. -/
def get_user_subscription_arn (store : List SubRecord) (uid route : String) : Option String :=
  match store.find? (fun r => r.user_id == uid && r.bus_route == route
      && r.subscription_arn.isSome) with
  | some r => r.subscription_arn
  | none => none

/-! ## SNS collaborator -/

/-- The SNS collaborator as seen by one Subscribe command: the ARN returned by
`sns_client.subscribe` (`response.get("SubscriptionArn")`) and the
`SubscriptionStatus` attribute reported by `get_subscription_attributes`. -/
structure SnsEnv where
  subscribeArn : Option String
  statusOf : String → String

/-- Side effects issued against the SNS client. -/
inductive SnsEffect where
  | subscribeCall (endpoint : String)
  | publish (subject : String)
  | unsubscribeCall (arn : String)
deriving DecidableEq

/-- Python truthiness of an optional string (`if arn` on
`response.get("SubscriptionArn")`). -/
def optTruthy : Option String → Bool
  | some s => s != ""
  | none => false

/-- Python's `str.lower()` on the character list of a string (the statuses
compared in the sources are ASCII). -/
def lowerChars (s : String) : List Char :=
  s.data.map Char.toLower

/-- Whether `get_subscription_attributes(...)["SubscriptionStatus"].lower()`
equals "confirmed" for an existing ARN (transit_alert_service.py lines 41-48). -/
def isConfirmed (env : SnsEnv) : Option String → Bool
  | some arn => lowerChars (env.statusOf arn) == "confirmed".data
  | none => false

/-- `TransitAlertSystem.subscribe_user_to_sns` (application variant, lines
35-74).  Returns the boolean result together with the updated store and the
SNS side effects.  Line 58 of the source computes
`status = "pending" if arn and arn != "pending confirmation" else "pending"`,
which is embedded literally; the welcome notification guard
`if status == "confirmed"` follows it as in the source. -/
def subscribe_user_to_sns (env : SnsEnv) (store : List SubRecord)
    (email user_id bus_route stop_id : String) :
    Bool × List SubRecord × List SnsEffect :=
  if !(is_valid_email email) then (false, store, [])
  else if isConfirmed env (get_user_subscription_arn store user_id bus_route) then
    (true, store, [])
  else
    let arn := env.subscribeArn
    let status :=
      if optTruthy arn && arn != some "pending confirmation" then "pending" else "pending"
    let item : SubRecord := ⟨user_id, bus_route, stop_id, email, arn, status⟩
    (true, putItem store item,
      SnsEffect.subscribeCall email ::
        (if status == "confirmed" then [SnsEffect.publish "Subscription Confirmed"] else []))

/-! ## The POST /subscribe command (lambda_handler.py lines 121-143) -/

/-- The configuration of the handler relevant to Subscribe. -/
structure Config where
  max_subscriptions : Nat

/-- `TransitAlertSystem.check_subscription_limit` (lines 31-32). -/
def check_subscription_limit (store : List SubRecord) (cfg : Config) (uid : String) : Bool :=
  decide ((get_user_subscriptions store uid).length < cfg.max_subscriptions)

/-- Outcome of one handler invocation: HTTP status, resulting store, SNS
side effects. -/
structure CmdResult where
  status : Nat
  store : List SubRecord
  effects : List SnsEffect
deriving DecidableEq

/-- The POST /subscribe route of `lambda_handler`: validate user/route/stop,
validate the email, check the subscription limit, then call
`subscribe_user_to_sns`; a truthy result maps to 200, a falsy one to 500. -/
def subscribeCommand (cfg : Config) (env : SnsEnv) (store : List SubRecord)
    (user_id route stop_id email : String) : CmdResult :=
  if !(validate_user_route user_id route stop_id) then ⟨400, store, []⟩
  else if !(is_valid_email email) then ⟨400, store, []⟩
  else if !(check_subscription_limit store cfg user_id) then ⟨403, store, []⟩
  else
    let res := subscribe_user_to_sns env store email user_id route stop_id
    ⟨if res.1 then 200 else 500, res.2.1, res.2.2⟩

/-! ## Stop-monitoring prediction (get_prediction) -/

/-- `MonitoredCall` block of a stop visit: `ExpectedArrivalTime` (modelled as
the parsed absolute instant in seconds), and the
`Extensions.Distances.StopsFromCall` / `DistanceFromCall` fields; a missing
field or a missing enclosing block is `none`. -/
structure MonitoredCall where
  expectedArrivalTime : Option Int
  stopsFromCall : Option Int
  distanceFromCall : Option Int
deriving DecidableEq

/-- One `MonitoredStopVisit` entry; the
`MonitoredVehicleJourney.MonitoredCall` chain with `{}` defaults collapses to
a `MonitoredCall` whose fields are `none` when anything is absent. -/
structure StopVisit where
  monitoredCall : MonitoredCall
deriving DecidableEq

/-- One `StopMonitoringDelivery` entry. -/
structure StopDelivery where
  monitoredStopVisit : List StopVisit
deriving DecidableEq

/-- A 2xx stop-monitoring response body
(`Siri.ServiceDelivery.StopMonitoringDelivery`). -/
structure StopResponse where
  stopMonitoringDelivery : List StopDelivery
deriving DecidableEq

/-- Lines 158-159: `stop_data = stop_monitoring_delivery[0].get("MonitoredStopVisit", [])
if stop_monitoring_delivery else []`. -/
def stopData (r : StopResponse) : List StopVisit :=
  match r.stopMonitoringDelivery with
  | [] => []
  | d :: _ => d.monitoredStopVisit

/-- The `minutes_away` computation of the application variant (lines 176-180):
`max(0, int(delta_seconds // 60))` where `delta_seconds` is the difference of
the arrival instant and now.  Converting both instants to America/New_York
does not change them, so the difference is taken on absolute seconds; Python
float `//` is floor division (`Int.fdiv`). -/
def minutesAwayApp (arrival now : Int) : Int :=
  max 0 (Int.fdiv (arrival - now) 60)

/-- The `minutes_away` computation of the deployment variant
(deployment/transit_alert_service.py lines 115-117):
`(arrival_time - current_time).seconds // 60`.  Python's `timedelta.seconds`
is the normalized seconds component of the difference, i.e. the total
difference in seconds modulo 86400 (always in `[0, 86400)`), not the total
number of seconds. -/
def minutesAwayDeploy (arrival now : Int) : Int :=
  Int.fdiv (Int.emod (arrival - now) 86400) 60

/-- The value returned by one successful pass of the application
`get_prediction` body: the two sentinel dicts carrying only a "message" key,
or the prediction payload (minutes away, raw stops/distance fields, arrival
instant). -/
inductive PredOutcome where
  | noDataMsg
  | noArrivalMsg
  | prediction (minutes_away : Int) (stops_away : Option Int)
      (distance_meters : Option Int) (arrival_time : Int)
deriving DecidableEq

/-- Lines 158-197 of the application `get_prediction`: classify a 2xx
response into the two sentinel messages or a prediction. -/
def processStopResponse (now : Int) (r : StopResponse) : PredOutcome :=
  match stopData r with
  | [] => PredOutcome.noDataMsg
  | v :: _ =>
    match v.monitoredCall.expectedArrivalTime with
    | none => PredOutcome.noArrivalMsg
    | some arrival =>
      PredOutcome.prediction (minutesAwayApp arrival now)
        v.monitoredCall.stopsFromCall v.monitoredCall.distanceFromCall arrival

/-- Outcome of one `requests.get` against the stop-monitoring endpoint:
a transport-level `requests.exceptions.RequestException`, any other
exception (JSON/parse errors, which `break` out of the loop), or a 2xx
response body. -/
inductive FetchOutcome where
  | reqError
  | fatal
  | ok (r : StopResponse)

/-- The retry loop of the application `get_prediction` (lines 144-207).
`remaining` is `max_retries - attempt`; `i` indexes the outcome of each HTTP
request; `made` counts requests issued.  A `RequestException` increments the
attempt counter and retries after the sleep, any other exception breaks, and
the loop falling through returns `None`. -/
def getPredictionLoop (env : Nat → FetchOutcome) (now : Int) :
    Nat → Nat → Nat → Option PredOutcome × Nat
  | 0, _, made => (none, made)
  | Nat.succ k, i, made =>
    match env i with
    | FetchOutcome.reqError => getPredictionLoop env now k (i + 1) (made + 1)
    | FetchOutcome.fatal => (none, made + 1)
    | FetchOutcome.ok r => (some (processStopResponse now r), made + 1)

/-- `TransitAlertSystem.get_prediction` (application variant): run the retry
loop starting at attempt 0.  Returns the result and the number of upstream
requests issued. -/
def get_prediction (env : Nat → FetchOutcome) (now : Int) (maxRetries : Nat) :
    Option PredOutcome × Nat :=
  getPredictionLoop env now maxRetries 0 0

/-- The GET /prediction result mapping of `lambda_handler` (lines 169-177):
a dict carrying a "message" key is returned as 404 with that message; a
prediction dict is logged and returned as 200.  When `get_prediction`
returned `None`, the source evaluates `prediction.get("message", ...)` on
`None`, raising `AttributeError`, which the outer handler turns into a 500. -/
def handlePrediction : Option PredOutcome → Nat
  | none => 500
  | some PredOutcome.noDataMsg => 404
  | some PredOutcome.noArrivalMsg => 404
  | some (PredOutcome.prediction _ _ _ _) => 200

/-! ## Vehicle delay check (check_vehicle_delay) -/

/-- One `VehicleActivity` entry as read by the deployment variant:
`MonitoredVehicleJourney.ProgressStatus` (default `""`) and
`MonitoredVehicleJourney.Delay` in seconds (default `0`). -/
structure VehicleActivity where
  progressStatus : String
  delay : Int
deriving DecidableEq

/-- Whether `needle` is a prefix of `hay` (character lists). -/
def listPre : List Char → List Char → Bool
  | [], _ => true
  | _ :: _, [] => false
  | a :: as, b :: bs => a == b && listPre as bs

/-- Python's substring test `needle in hay` on character lists. -/
def listSub (needle : List Char) : List Char → Bool
  | [] => needle.isEmpty
  | c :: rest => listPre needle (c :: rest) || listSub needle rest

/-- `check_vehicle_delay` of the deployment variant (lines 64-78): collect
the vehicles whose lowercased `ProgressStatus` contains "delayed" and whose
`Delay // 60` is `>=` the vehicle delay threshold; a notification is
dispatched iff that list is nonempty. -/
def check_vehicle_delay_deploy (threshold : Int) (vehicleData : List VehicleActivity) : Bool :=
  !(vehicleData.filter (fun a =>
      listSub "delayed".data (lowerChars a.progressStatus)
        && decide (threshold ≤ Int.fdiv a.delay 60))).isEmpty

/-- `check_vehicle_delay` of the services variant
(application/services/transit_alert_service.py lines 39-58): collect the
`attributes.delay` values strictly greater than the threshold; a notification
is dispatched iff that list is nonempty. -/
def check_vehicle_delay_services (threshold : Int) (busDelays : List Int) : Bool :=
  !(busDelays.filter (fun d => decide (threshold < d))).isEmpty

/-! ## Cancelled routes (get_cancelled_routes, GET /cancelled) -/

/-- `TransitAlertSystem.get_cancelled_routes` (application variant, lines
300-313): every route of `get_all_unique_routes` is appended, in order, to
the cancelled list when `check_if_route_cancelled` holds and to the active
list otherwise.  The per-route upstream check is abstracted as the boolean
`isCancelled`. -/
def get_cancelled_routes (isCancelled : String → Bool) :
    List String → List String × List String
  | [] => ([], [])
  | r :: rest =>
    let res := get_cancelled_routes isCancelled rest
    if isCancelled r then (r :: res.1, res.2) else (res.1, r :: res.2)

/-- Response of the GET /cancelled route. -/
structure CancelledResponse where
  status : Nat
  cancelled_routes : List String
  active_routes : List String
  count_cancelled : Nat
  count_active : Nat
deriving DecidableEq

/-- The GET /cancelled route of `lambda_handler` (lines 180-194).  The
source's 404 branch tests `cancelled_routes is None`; `get_cancelled_routes`
always returns a pair of lists and never `None`, so the test is embedded as
the (always false) check that `some` of the list is `none`. -/
def cancelledCommand (isCancelled : String → Bool) (routes : List String) :
    CancelledResponse :=
  let res := get_cancelled_routes isCancelled routes
  if (some res.1 : Option (List String)) = none then ⟨404, [], [], 0, 0⟩
  else ⟨200, res.1, res.2, res.1.length, res.2.length⟩

/-! ## Unsubscribe by email (unsubscribe_email_from_sns) -/

/-- One entry of `list_subscriptions_by_topic`: endpoint, `SubscriptionArn`
(absent when the response carries none) and protocol. -/
structure SnsTopicSub where
  endpoint : String
  subscriptionArn : Option String
  protocol : String
deriving DecidableEq

/-- The loop of `unsubscribe_email_from_sns` (application variant, lines
234-254), with `found` and the list of ARNs unsubscribed so far as
accumulators.  An ARN equal to "PendingConfirmation" returns `False` at
once; "Deleted" and a missing ARN are skipped (the source tests
`arn == "Deleted" or arn is None` after the pending test; a missing ARN
never equals "PendingConfirmation", so taking the `none` case first is
behaviourally identical); any other ARN is unsubscribed and sets `found`. -/
def unsubLoop : List SnsTopicSub → Bool → List String → Bool × List String
  | [], found, done => (found, done)
  | s :: rest, found, done =>
    match s.subscriptionArn with
    | none => unsubLoop rest found done
    | some arn =>
      if arn == "PendingConfirmation" then (false, done)
      else if arn == "Deleted" then unsubLoop rest found done
      else unsubLoop rest true (done ++ [arn])

/-- `TransitAlertSystem.unsubscribe_email_from_sns` (lines 228-263): run the
loop over the topic's subscriptions and return the boolean result together
with the ARNs that were unsubscribed.  The `email` argument appears only in
log strings in the source. -/
def unsubscribe_email_from_sns (email : String) (subs : List SnsTopicSub) :
    Bool × List String :=
  unsubLoop subs false []

/-- Whether a listed subscription has the "PendingConfirmation" ARN. -/
def isPending (s : SnsTopicSub) : Bool :=
  s.subscriptionArn == some "PendingConfirmation"

/-- The ARN the loop would unsubscribe for one entry: present iff the ARN is
neither absent nor "PendingConfirmation" nor "Deleted". -/
def activeArn (s : SnsTopicSub) : Option String :=
  match s.subscriptionArn with
  | none => none
  | some arn =>
    if arn == "PendingConfirmation" then none
    else if arn == "Deleted" then none
    else some arn

/-! ## Helper lemmas -/

/-- Overwriting the same primary key twice leaves the store as after one
overwrite. -/
theorem putItem_idem (store : List SubRecord) (item : SubRecord) :
    putItem (putItem store item) item = putItem store item := by
  unfold putItem
  rw [List.filter_append]
  have h1 : List.filter (fun r => !(sameKey r item.user_id item.bus_route)) [item] = [] := by
    simp [sameKey]
  rw [h1, List.filter_filter]
  simp [Bool.and_self]

/-- Normal form of the POST /subscribe command once the inputs pass
validation: reject with 403 at the limit, short-circuit with 200 on a
confirmed binding, and otherwise subscribe and upsert the record with
email_status "pending". -/
theorem subscribeCommand_eq (cfg : Config) (env : SnsEnv) (store : List SubRecord)
    (user_id route stop_id email : String)
    (hv : validate_user_route user_id route stop_id = true)
    (he : is_valid_email email = true) :
    subscribeCommand cfg env store user_id route stop_id email =
      if (get_user_subscriptions store user_id).length < cfg.max_subscriptions then
        (if isConfirmed env (get_user_subscription_arn store user_id route) then
          ⟨200, store, []⟩
        else
          ⟨200, putItem store ⟨user_id, route, stop_id, email, env.subscribeArn, "pending"⟩,
            [SnsEffect.subscribeCall email]⟩)
      else ⟨403, store, []⟩ := by
  unfold subscribeCommand subscribe_user_to_sns check_subscription_limit
  rw [hv, he]
  by_cases hlim : (get_user_subscriptions store user_id).length < cfg.max_subscriptions
  · simp only [decide_eq_true hlim, Bool.not_true, Bool.false_eq_true, if_false, if_pos hlim,
      ite_self]
    by_cases hc : isConfirmed env (get_user_subscription_arn store user_id route) = true
    · simp [hc]
    · simp only [Bool.not_eq_true] at hc
      have hpc : (("pending" : String) == "confirmed") = false := by decide
      simp [hc, hpc]
  · simp only [decide_eq_false hlim, Bool.not_false, if_true, if_neg hlim]
    simp

/-- The two result lists of `get_cancelled_routes` are the filters of the
route list by the cancellation check and its negation. -/
theorem get_cancelled_routes_eq (p : String → Bool) (l : List String) :
    get_cancelled_routes p l = (l.filter p, l.filter fun r => !(p r)) := by
  induction l with
  | nil => rfl
  | cons r rest ih =>
    simp only [get_cancelled_routes, ih, List.filter_cons]
    cases hp : p r <;> simp [hp]

/-- Filtering by a predicate and by its negation splits the length. -/
theorem filter_length_partition (p : String → Bool) (l : List String) :
    (l.filter p).length + (l.filter fun r => !(p r)).length = l.length := by
  induction l with
  | nil => rfl
  | cons a t ih => cases hp : p a <;> simp [List.filter_cons, hp] <;> omega

/-- A filtered list is nonempty iff some element satisfies the predicate. -/
theorem filter_nonempty_iff {α : Type} (q : α → Bool) (l : List α) :
    (!(List.filter q l).isEmpty) = true ↔ ∃ a, a ∈ l ∧ q a = true := by
  induction l with
  | nil => simp
  | cons a t ih =>
    cases hq : q a with
    | true =>
      simp only [List.filter_cons, hq, if_true, List.isEmpty_cons, Bool.not_false, true_iff]
      exact ⟨a, List.mem_cons_self a t, hq⟩
    | false =>
      simp only [List.filter_cons, hq, Bool.false_eq_true, if_false]
      rw [ih]
      constructor
      · rintro ⟨x, hx, hqx⟩
        exact ⟨x, List.mem_cons_of_mem a hx, hqx⟩
      · rintro ⟨x, hx, hqx⟩
        rcases List.mem_cons.mp hx with h | h
        · exact absurd hqx (by rw [h, hq]; exact Bool.false_ne_true)
        · exact ⟨x, h, hqx⟩

/-- Number of requests made by the retry loop, bounded by the remaining
attempts. -/
theorem getPredictionLoop_made_le (env : Nat → FetchOutcome) (now : Int) :
    ∀ k i made, (getPredictionLoop env now k i made).2 ≤ made + k := by
  intro k
  induction k with
  | zero => intro i made; simp [getPredictionLoop]
  | succ n ih =>
    intro i made
    simp only [getPredictionLoop]
    cases env i with
    | reqError => exact (ih (i + 1) (made + 1)).trans (by omega)
    | fatal => show made + 1 ≤ made + (n + 1); omega
    | ok r => show made + 1 ≤ made + (n + 1); omega

/-- When every remaining request fails at the transport level, the retry
loop falls through and returns `None`. -/
theorem getPredictionLoop_none_of_allFail (env : Nat → FetchOutcome) (now : Int) :
    ∀ k i made, (∀ j, i ≤ j → j < i + k → env j = FetchOutcome.reqError) →
      (getPredictionLoop env now k i made).1 = none := by
  intro k
  induction k with
  | zero => intro i made _; rfl
  | succ n ih =>
    intro i made h
    have hi : env i = FetchOutcome.reqError := h i (le_refl i) (by omega)
    simp only [getPredictionLoop, hi]
    exact ih (i + 1) (made + 1) (fun j h1 h2 => h j (by omega) (by omega))

/-- Closed form of the unsubscribe loop: the boolean result is "no listed
subscription is pending and at least one has an active ARN", and the
unsubscribed ARNs are the active ARNs of the prefix before the first
pending entry. -/
theorem unsubLoop_eq (subs : List SnsTopicSub) :
    ∀ (found : Bool) (done : List String),
      unsubLoop subs found done =
        ((!(subs.any isPending)) && (found || !(subs.filterMap activeArn).isEmpty),
          done ++ (subs.takeWhile fun s => !(isPending s)).filterMap activeArn) := by
  induction subs with
  | nil => intro found done; simp [unsubLoop]
  | cons s rest ih =>
    intro found done
    cases harn : s.subscriptionArn with
    | none =>
      have hp : isPending s = false := by simp [isPending, harn]
      have ha : activeArn s = none := by simp [activeArn, harn]
      simp [unsubLoop, harn, hp, ha, ih]
    | some arn =>
      by_cases h1 : arn = "PendingConfirmation"
      · have hp : isPending s = true := by simp [isPending, harn, h1]
        simp [unsubLoop, harn, h1, hp]
      · by_cases h2 : arn = "Deleted"
        · have hp : isPending s = false := by simp [isPending, harn, h1]
          have ha : activeArn s = none := by simp [activeArn, harn, h1, h2]
          simp [unsubLoop, harn, h1, h2, hp, ha, ih]
        · have hp : isPending s = false := by simp [isPending, harn, h1]
          have ha : activeArn s = some arn := by simp [activeArn, harn, h1, h2]
          simp [unsubLoop, harn, h1, h2, hp, ha, ih]

/-! ## Claims -/

/-- Claim C1 (code bug): the application variant's `minutes_away` is the
floor of the difference in minutes clamped at 0 and is never negative, but
the deployment variant computes `timedelta.seconds // 60`, so a bus whose
arrival time is 120 seconds in the past reads as 1438 minutes away instead
of the clamped 0 the claim requires. -/
theorem C1_minutes_away_deploy_bug :
    (∀ arrival now : Int, 0 ≤ minutesAwayApp arrival now)
    ∧ minutesAwayApp (-120) 0 = 0
    ∧ minutesAwayDeploy (-120) 0 = 1438
    ∧ minutesAwayDeploy (-120) 0 ≠ max 0 (Int.fdiv (-120 - 0) 60) :=
  ⟨fun _ _ => le_max_left 0 _, by decide, by decide, by decide⟩

/-- Claim C2 counterexample: with max_subscriptions = 1 and an empty store,
the first Subscribe succeeds with 200, but the second identical Subscribe is
rejected with 403 — the second call does not succeed, refuting the claim as
stated. -/
theorem C2_second_subscribe_rejected_at_limit :
    (subscribeCommand ⟨1⟩ ⟨some "arn-1", fun _ => "PendingConfirmation"⟩ []
        "u1" "B1" "s1" "a@b.c").status = 200
    ∧ (subscribeCommand ⟨1⟩ ⟨some "arn-1", fun _ => "PendingConfirmation"⟩
        (subscribeCommand ⟨1⟩ ⟨some "arn-1", fun _ => "PendingConfirmation"⟩ []
          "u1" "B1" "s1" "a@b.c").store
        "u1" "B1" "s1" "a@b.c").status = 403 :=
  ⟨rfl, rfl⟩

/-- Claim C2 (amended): for valid arguments, a second identical Subscribe
never changes the user's subscription count (the store is an upsert keyed by
(user_id, route) and a confirmed binding short-circuits), and the second
call succeeds with 200 whenever the user is still below the subscription
limit after the first call. -/
theorem C2_subscribe_idempotent_count (cfg : Config) (env : SnsEnv) (store : List SubRecord)
    (user_id route stop_id email : String)
    (hv : validate_user_route user_id route stop_id = true)
    (he : is_valid_email email = true) :
    (get_user_subscriptions
        (subscribeCommand cfg env
          (subscribeCommand cfg env store user_id route stop_id email).store
          user_id route stop_id email).store user_id).length
      = (get_user_subscriptions
          (subscribeCommand cfg env store user_id route stop_id email).store user_id).length
    ∧ ((get_user_subscriptions
          (subscribeCommand cfg env store user_id route stop_id email).store user_id).length
            < cfg.max_subscriptions →
        (subscribeCommand cfg env
          (subscribeCommand cfg env store user_id route stop_id email).store
          user_id route stop_id email).status = 200) := by
  rw [subscribeCommand_eq cfg env store user_id route stop_id email hv he]
  by_cases hlim : (get_user_subscriptions store user_id).length < cfg.max_subscriptions
  · rw [if_pos hlim]
    by_cases hc : isConfirmed env (get_user_subscription_arn store user_id route) = true
    · rw [if_pos hc]
      dsimp only
      rw [subscribeCommand_eq cfg env store user_id route stop_id email hv he,
        if_pos hlim, if_pos hc]
      exact ⟨rfl, fun _ => rfl⟩
    · rw [if_neg hc]
      dsimp only
      rw [subscribeCommand_eq cfg env
        (putItem store ⟨user_id, route, stop_id, email, env.subscribeArn, "pending"⟩)
        user_id route stop_id email hv he]
      by_cases hlim2 : (get_user_subscriptions
          (putItem store ⟨user_id, route, stop_id, email, env.subscribeArn, "pending"⟩)
          user_id).length < cfg.max_subscriptions
      · rw [if_pos hlim2]
        by_cases hc2 : isConfirmed env (get_user_subscription_arn
            (putItem store ⟨user_id, route, stop_id, email, env.subscribeArn, "pending"⟩)
            user_id route) = true
        · rw [if_pos hc2]
          exact ⟨rfl, fun _ => rfl⟩
        · rw [if_neg hc2]
          dsimp only
          rw [putItem_idem]
          exact ⟨rfl, fun _ => rfl⟩
      · rw [if_neg hlim2]
        dsimp only
        exact ⟨rfl, fun h => absurd h hlim2⟩
  · rw [if_neg hlim]
    dsimp only
    rw [subscribeCommand_eq cfg env store user_id route stop_id email hv he, if_neg hlim]
    dsimp only
    exact ⟨rfl, fun h => absurd h hlim⟩

/-- Claim C2 witness: below the limit (max_subscriptions = 2) the second
identical Subscribe leaves the count unchanged and succeeds with 200. -/
theorem C2_subscribe_idempotent_count_witness :
    (get_user_subscriptions
        (subscribeCommand ⟨2⟩ ⟨some "arn-1", fun _ => ""⟩
          (subscribeCommand ⟨2⟩ ⟨some "arn-1", fun _ => ""⟩ [] "u1" "B1" "s1" "a@b.c").store
          "u1" "B1" "s1" "a@b.c").store "u1").length
      = (get_user_subscriptions
          (subscribeCommand ⟨2⟩ ⟨some "arn-1", fun _ => ""⟩ [] "u1" "B1" "s1" "a@b.c").store
          "u1").length
    ∧ (subscribeCommand ⟨2⟩ ⟨some "arn-1", fun _ => ""⟩
        (subscribeCommand ⟨2⟩ ⟨some "arn-1", fun _ => ""⟩ [] "u1" "B1" "s1" "a@b.c").store
        "u1" "B1" "s1" "a@b.c").status = 200 :=
  ⟨(C2_subscribe_idempotent_count ⟨2⟩ ⟨some "arn-1", fun _ => ""⟩ [] "u1" "B1" "s1" "a@b.c"
      rfl rfl).1,
    (C2_subscribe_idempotent_count ⟨2⟩ ⟨some "arn-1", fun _ => ""⟩ [] "u1" "B1" "s1" "a@b.c"
      rfl rfl).2 (by decide)⟩

/-- Claim C3: when the stored subscription count already equals
max_subscriptions and the arguments are valid, Subscribe is rejected with
403, the store is unchanged, and no SNS call at all — in particular no
channel-provider subscribe — is issued: the limit check runs before any
binding creation. -/
theorem C3_limit_rejected_before_binding (cfg : Config) (env : SnsEnv)
    (store : List SubRecord) (user_id route stop_id email : String)
    (hv : validate_user_route user_id route stop_id = true)
    (he : is_valid_email email = true)
    (hlim : (get_user_subscriptions store user_id).length = cfg.max_subscriptions) :
    subscribeCommand cfg env store user_id route stop_id email = ⟨403, store, []⟩ := by
  rw [subscribeCommand_eq cfg env store user_id route stop_id email hv he]
  rw [if_neg (by omega)]

/-- Claim C3 witness: a user holding 1 of max 1 subscriptions is rejected
with 403, an unchanged store and no SNS effects. -/
theorem C3_limit_rejected_before_binding_witness :
    subscribeCommand ⟨1⟩ ⟨some "arn-2", fun _ => ""⟩
        [⟨"u1", "B1", "s1", "a@b.c", some "arn-1", "pending"⟩]
        "u1" "B2" "s2" "a@b.c"
      = ⟨403, [⟨"u1", "B1", "s1", "a@b.c", some "arn-1", "pending"⟩], []⟩ :=
  C3_limit_rejected_before_binding ⟨1⟩ ⟨some "arn-2", fun _ => ""⟩
    [⟨"u1", "B1", "s1", "a@b.c", some "arn-1", "pending"⟩]
    "u1" "B2" "s2" "a@b.c" rfl rfl rfl

/-- Claim C4 counterexample: a vehicle whose status says "delayed" and whose
delay is exactly the threshold (300 s = 5 min against threshold 5) is
flagged by the deployment check, although its delay does not strictly exceed
the threshold — the source compares with `>=`, not `>`. -/
theorem C4_boundary_delay_flagged :
    check_vehicle_delay_deploy 5 [⟨"delayed", 300⟩] = true
    ∧ ¬ (5 : Int) < Int.fdiv 300 60 :=
  ⟨by decide, by decide⟩

/-- Claim C4 (amended): the deployment check flags a route exactly when some
vehicle's status text contains "delayed" (lowercased) and its delay, floored
to minutes, is greater than or equal to the threshold; the services variant
flags exactly when some vehicle's delay strictly exceeds the threshold,
without consulting status text. -/
theorem C4_delay_flag_characterization (threshold : Int)
    (vehicleData : List VehicleActivity) (busDelays : List Int) :
    (check_vehicle_delay_deploy threshold vehicleData = true ↔
      ∃ a, a ∈ vehicleData
        ∧ listSub "delayed".data (lowerChars a.progressStatus) = true
        ∧ threshold ≤ Int.fdiv a.delay 60)
    ∧ (check_vehicle_delay_services threshold busDelays = true ↔
      ∃ d, d ∈ busDelays ∧ threshold < d) := by
  constructor
  · unfold check_vehicle_delay_deploy
    rw [filter_nonempty_iff]
    simp [Bool.and_eq_true, decide_eq_true_eq]
  · unfold check_vehicle_delay_services
    rw [filter_nonempty_iff]
    simp [decide_eq_true_eq]

/-- Claim C5: for any 2xx upstream response, the handler surfaces a 404 both
when the stop-visit list is empty and when the first visit lacks an
ExpectedArrivalTime — the two sentinel cases land in the same not-found
class. -/
theorem C5_sentinel_not_found (m : Nat) (now : Int) (r : StopResponse) (hm : 0 < m) :
    (stopData r = [] →
      handlePrediction (get_prediction (fun _ => FetchOutcome.ok r) now m).1 = 404)
    ∧ (∀ v rest, stopData r = v :: rest → v.monitoredCall.expectedArrivalTime = none →
        handlePrediction (get_prediction (fun _ => FetchOutcome.ok r) now m).1 = 404) := by
  obtain ⟨k, rfl⟩ : ∃ k, m = k + 1 := ⟨m - 1, by omega⟩
  constructor
  · intro h
    simp [get_prediction, getPredictionLoop, processStopResponse, h, handlePrediction]
  · intro v rest h hv
    simp [get_prediction, getPredictionLoop, processStopResponse, h, hv, handlePrediction]

/-- Claim C5 witness: an empty delivery list and a visit with no arrival
time both produce a 404 after a first-attempt 2xx. -/
theorem C5_sentinel_not_found_witness :
    handlePrediction (get_prediction (fun _ => FetchOutcome.ok ⟨[]⟩) 0 3).1 = 404
    ∧ handlePrediction
        (get_prediction (fun _ => FetchOutcome.ok ⟨[⟨[⟨⟨none, none, none⟩⟩]⟩]⟩) 0 3).1 = 404 :=
  ⟨(C5_sentinel_not_found 3 0 ⟨[]⟩ (by decide)).1 rfl,
    (C5_sentinel_not_found 3 0 ⟨[⟨[⟨⟨none, none, none⟩⟩]⟩]⟩ (by decide)).2
      ⟨⟨none, none, none⟩⟩ [] rfl rfl⟩

/-- Claim C6: `get_cancelled_routes` splits the distinct route list into the
cancelled and active lists: the lengths add up to the total, and every route
of the input lands in the cancelled list exactly when the cancellation check
holds and in the active list exactly when it does not. -/
theorem C6_cancelled_partition (p : String → Bool) (routes : List String) :
    ((get_cancelled_routes p routes).1.length + (get_cancelled_routes p routes).2.length
        = routes.length)
    ∧ ∀ r, r ∈ routes →
        (((r ∈ (get_cancelled_routes p routes).1) ↔ p r = true)
          ∧ ((r ∈ (get_cancelled_routes p routes).2) ↔ p r = false)) := by
  rw [get_cancelled_routes_eq]
  refine ⟨filter_length_partition p routes, ?_⟩
  intro r hr
  constructor
  · simp [List.mem_filter, hr]
  · simp [List.mem_filter, hr]

/-- Claim C6 witness: with routes ["B1", "Q5"] and only "B1" cancelled, the
counts add to 2 and "B1" is in the cancelled list. -/
theorem C6_cancelled_partition_witness :
    ((get_cancelled_routes (fun r => r == "B1") ["B1", "Q5"]).1.length
        + (get_cancelled_routes (fun r => r == "B1") ["B1", "Q5"]).2.length = 2)
    ∧ ("B1" ∈ (get_cancelled_routes (fun r => r == "B1") ["B1", "Q5"]).1
        ↔ (("B1" : String) == "B1") = true) :=
  ⟨(C6_cancelled_partition (fun r => r == "B1") ["B1", "Q5"]).1,
    ((C6_cancelled_partition (fun r => r == "B1") ["B1", "Q5"]).2 "B1" (by simp)).1⟩

/-- Claim C7: `get_prediction` issues at most max_retries upstream requests,
and when every attempt fails at the transport level it returns `None`
instead of raising — the retry loop terminates and degrades to no data. -/
theorem C7_retry_bounded_degrades (env : Nat → FetchOutcome) (now : Int) (maxRetries : Nat) :
    (get_prediction env now maxRetries).2 ≤ maxRetries
    ∧ ((∀ i, i < maxRetries → env i = FetchOutcome.reqError) →
        (get_prediction env now maxRetries).1 = none) := by
  constructor
  · simpa using getPredictionLoop_made_le env now maxRetries 0 0
  · intro h
    exact getPredictionLoop_none_of_allFail env now maxRetries 0 0
      (fun j _ hj => h j (by omega))

/-- Claim C7 witness: with every request failing and max_retries = 3, at
most 3 requests are made and the result is `None`. -/
theorem C7_retry_bounded_degrades_witness :
    (get_prediction (fun _ => FetchOutcome.reqError) 0 3).2 ≤ 3
    ∧ (get_prediction (fun _ => FetchOutcome.reqError) 0 3).1 = none :=
  ⟨(C7_retry_bounded_degrades (fun _ => FetchOutcome.reqError) 0 3).1,
    (C7_retry_bounded_degrades (fun _ => FetchOutcome.reqError) 0 3).2 (fun _ _ => rfl)⟩

/-- Claim C8: subscribe_user_to_sns never publishes the "Subscription
Confirmed" welcome notification while the binding is pending: the computed
email_status is always "pending" (line 58 yields "pending" in both
branches), so the `status == "confirmed"` guard never fires. -/
theorem C8_no_welcome_before_confirmed (env : SnsEnv) (store : List SubRecord)
    (email user_id bus_route stop_id : String) :
    SnsEffect.publish "Subscription Confirmed" ∉
      (subscribe_user_to_sns env store email user_id bus_route stop_id).2.2 := by
  unfold subscribe_user_to_sns
  by_cases he : is_valid_email email
  · by_cases hc : isConfirmed env (get_user_subscription_arn store user_id bus_route) = true
    · simp [he, hc]
    · have hpc : (("pending" : String) == "confirmed") = false := by decide
      simp [he, hc, ite_self, hpc]
  · simp [he]

/-- Claim C9 counterexample: with an empty route store, GET /cancelled
returns 200 with empty lists and zero counts, not the 404 the claim
requires. -/
theorem C9_empty_store_returns_200 :
    (cancelledCommand (fun _ => true) []).status = 200
    ∧ ¬ (cancelledCommand (fun _ => true) []).status = 404 :=
  ⟨rfl, by decide⟩

/-- Claim C9 (amended): with an empty route store GET /cancelled succeeds
with 200, empty cancelled and active lists and zero counts; the 404 branch
tests `cancelled_routes is None`, which never holds, so every invocation
returns 200. -/
theorem C9_empty_store_amended (isCancelled : String → Bool) :
    cancelledCommand isCancelled [] = ⟨200, [], [], 0, 0⟩
    ∧ ∀ routes, (cancelledCommand isCancelled routes).status = 200 := by
  refine ⟨rfl, fun routes => ?_⟩
  simp [cancelledCommand]

/-- Claim C10: unsubscribe_email_from_sns never compares the email to the
bindings' endpoints — its result is the same for every email argument; it
returns `True` exactly when no listed binding has ARN "PendingConfirmation"
and at least one has an active ARN, and the bindings it removes are the
active ARNs (neither "Deleted" nor absent) of the prefix before the first
pending binding, regardless of owner. -/
theorem C10_unsubscribe_email_independent (email : String) (subs : List SnsTopicSub) :
    (unsubscribe_email_from_sns email subs).1
        = ((!(subs.any isPending)) && !(subs.filterMap activeArn).isEmpty)
    ∧ (unsubscribe_email_from_sns email subs).2
        = (subs.takeWhile fun s => !(isPending s)).filterMap activeArn
    ∧ ∀ other, unsubscribe_email_from_sns other subs = unsubscribe_email_from_sns email subs := by
  refine ⟨?_, ?_, fun other => rfl⟩
  · unfold unsubscribe_email_from_sns
    rw [unsubLoop_eq]
    simp
  · unfold unsubscribe_email_from_sns
    rw [unsubLoop_eq]
    simp

end TransitAlert
